import Mathlib

/-!
Verification of the moderation-pipeline core of `tg-chat-moderator`.

Shallow embedding of the components referenced by the claims:
JSON value model and the tolerant verdict-parse cascades
(`src/moderation/batch.py`, `src/moderation/engine.py`), the verdict
dispatch state machine (`ModerationEngine._apply_verdict`), the
`evaluate` control flow, the quota manager (`src/moderation/quota.py`),
the batch queue token accounting (`src/moderation/batch.py`), the
reputation strike excerpt (`src/moderation/reputation.py`) and the
newcomer classifier (`src/moderation/newcomer.py`).
-/

/-- Model of a Python JSON value as produced by `json.loads`. -/
inductive JValue where
  | jnull
  | jbool (b : Bool)
  | jnum (n : Int)
  | jstr (s : String)
  | jarr (elems : List JValue)
  | jobj (fields : List (String × JValue))
  deriving Repr

/-- Lookup of a key in the field list of a JSON object (Python dict lookup). -/
def jlookup (fields : List (String × JValue)) (key : String) : Option JValue :=
  match fields with
  | [] => none
  | (k, v) :: rest => if k = key then some v else jlookup rest key

/-- Python `verdict[key]`: succeeds only on an object that has the key;
a missing key (KeyError) or a non-object (TypeError) yields `none`. -/
def getItem (v : JValue) (key : String) : Option JValue :=
  match v with
  | .jobj fields => jlookup fields key
  | _ => none

/-- Python `verdict.get(key, dflt)` on an object. -/
def getDefault (v : JValue) (key : String) (dflt : JValue) : JValue :=
  match v with
  | .jobj fields => (jlookup fields key).getD dflt
  | _ => dflt

/-- Python `action == s` where `action` is an arbitrary JSON value:
true only when `action` is the string `s`. -/
def jstrEq (v : JValue) (s : String) : Bool :=
  match v with
  | .jstr t => t = s
  | _ => false

/-!
## Verdict parse cascades

`BatchQueue.parse_batch_verdicts` and `ModerationEngine._parse_verdict`
call the Python standard library (`json.loads`, `re.search`, `re.findall`).
Those library functions are external to the repository, so they enter the
embedding as an oracle record `ParseEnv`; the cascade structure itself is
translated line by line from the source.
-/

/-- Python strings handled by the parse cascades are embedded as their
character lists, so that stripping and splitting compute by structural
recursion. -/
abbrev PyStr := List Char

/-- The markdown fence marker: three backquote characters (code 96). -/
def fenceMarker : PyStr := [Char.ofNat 96, Char.ofNat 96, Char.ofNat 96]

/-- Python `str.strip()`: drop whitespace from both ends. -/
def pyStrip (s : PyStr) : PyStr :=
  ((s.dropWhile Char.isWhitespace).reverse.dropWhile Char.isWhitespace).reverse

/-- Python `str.split` at newlines: split into lines at every newline
character, keeping empty parts. -/
def pySplitLines : PyStr → List PyStr
  | [] => [[]]
  | c :: rest =>
    if c = '\n' then [] :: pySplitLines rest
    else
      match pySplitLines rest with
      | [] => [[c]]
      | l :: ls => (c :: l) :: ls

/-- Oracle for the external Python library calls used by the parse cascades:
`jsonLoads` models `json.loads` (`none` = `JSONDecodeError`),
`searchArray` models `re.search` with pattern matching a bracketed array
(greedy, dot-matches-newline), `searchObject` the same for a braced object,
and `findObjects` models `re.findall` with the non-nesting object pattern. -/
structure ParseEnv where
  jsonLoads : PyStr → Option JValue
  searchArray : PyStr → Option PyStr
  searchObject : PyStr → Option PyStr
  findObjects : PyStr → List PyStr

/-- Markdown-fence stripping shared by both parsers: strip the raw string;
if it starts with a triple-backtick fence, drop every fence line and strip
again (`batch.py` lines 188-194, `engine.py` lines 488-492). -/
def stripFences (raw : PyStr) : PyStr :=
  let cleaned := pyStrip raw
  if fenceMarker.isPrefixOf cleaned then
    let lines := pySplitLines cleaned
    let kept := lines.filter (fun l => !(fenceMarker.isPrefixOf (pyStrip l)))
    pyStrip (List.intercalate ['\n'] kept)
  else
    cleaned

/-- The fail-safe verdict emitted by `parse_batch_verdicts` when every
parse step fails (`batch.py` line 228). -/
def okBatchFallback : JValue :=
  .jobj [("verdict", .jstr "ok"), ("reason", .jstr "unparseable batch response"),
         ("reply", .jstr "")]

/-- The fail-safe verdict of `ModerationEngine._parse_verdict`
(`engine.py` line 508). -/
def okSingleFallback : JValue :=
  .jobj [("verdict", .jstr "ok"), ("reason", .jstr "unparseable LLM response"),
         ("reply", .jstr "")]

/-- Embedding of `BatchQueue.parse_batch_verdicts(raw, expected_count)` (`batch.py`
lines 182-230): strip fences; parse the whole string and accept a list;
else extract a bracketed substring and accept a parsed list; else parse
each non-nesting braced substring individually and accept when at least
one parses; else emit `expected_count` fail-safe `ok` verdicts. -/
def parse_batch_verdicts (env : ParseEnv) (raw : PyStr) (expectedCount : Nat) :
    List JValue :=
  let cleaned := stripFences raw
  let step4 : List JValue :=
    let parsed := (env.findObjects cleaned).filterMap env.jsonLoads
    if parsed.isEmpty then List.replicate expectedCount okBatchFallback else parsed
  let step3 : List JValue :=
    match env.searchArray cleaned with
    | some sub =>
      match env.jsonLoads sub with
      | some (.jarr xs) => xs
      | _ => step4
    | none => step4
  match env.jsonLoads cleaned with
  | some (.jarr xs) => xs
  | _ => step3

/-- Embedding of `ModerationEngine._parse_verdict(raw)` (`engine.py` lines 486-508):
strip fences; return the whole-string JSON parse whatever value it is;
else extract a braced substring and return its parse; else the fail-safe
`ok` verdict. -/
def parse_verdict (env : ParseEnv) (raw : PyStr) : JValue :=
  let cleaned := stripFences raw
  match env.jsonLoads cleaned with
  | some v => v
  | none =>
    match env.searchObject cleaned with
    | some sub =>
      match env.jsonLoads sub with
      | some v => v
      | none => okSingleFallback
    | none => okSingleFallback

/-!
## Verdict dispatch state machine

`ModerationEngine._apply_verdict` (`engine.py` lines 374-483) is embedded
as a pure function from a dispatch context and a parsed verdict to either
an error (the unguarded `verdict["verdict"]` lookup raising) or the
ordered list of side effects the method performs.
-/

/-- Tag attached to an `actions.forward_to_review` call by the dispatch. -/
inductive ReviewTag where
  | okTestGroup
  | dryRun (action : JValue)
  | strikeBypassed (action : JValue)
  | plain (action : JValue)

/-- Observable side effects of `_apply_verdict`, in program order. -/
inductive Effect where
  | recordVerdict (action : JValue)
  | forwardToReview (tag : ReviewTag)
  | recordAction
  | addStrike
  | incWarnings
  | warnAct
  | deleteAct
  | muteAct
  | banAct
  | recordBan
  | statusUpdate

/-- The flags `_apply_verdict` consults: `config.dry_run`,
`reputation.is_trusted(user_id)`, the test-group check on chat title/id,
`actions.review_group` being configured and `self.status` being set. -/
structure DispatchCtx where
  dryRun : Bool
  trusted : Bool
  isTestGroup : Bool
  hasReviewGroup : Bool
  hasStatus : Bool

/-- Embedding of `ModerationEngine._apply_verdict(verdict, ...)` as an effect trace.
`Except.error` marks the `verdict["verdict"]` subscript raising on a value
that is not an object with a `verdict` key; otherwise the returned list
records, in order: `reports.record_verdict`; the `ok` early return (with
the test-group review forward); the dry-run early return; live mode's
`_record_action`, the trusted-user downgrade for `ban`/`mute`/`delete`
(strike plus `STRIKE (<action> bypassed)` forward), the four action
branches, the non-ok review forward and the status update. -/
def apply_verdict (ctx : DispatchCtx) (verdict : JValue) :
    Except Unit (List Effect) :=
  match getItem verdict "verdict" with
  | none => .error ()
  | some action =>
    let base := [Effect.recordVerdict action]
    if jstrEq action "ok" then
      .ok (base ++ (if ctx.isTestGroup && ctx.hasReviewGroup then
        [.forwardToReview .okTestGroup] else []))
    else if ctx.dryRun then
      .ok (base
        ++ (if ctx.hasReviewGroup then [.forwardToReview (.dryRun action)] else [])
        ++ (if ctx.hasStatus then [.statusUpdate] else []))
    else if ctx.trusted &&
        (jstrEq action "ban" || jstrEq action "mute" || jstrEq action "delete") then
      .ok (base ++ [.recordAction, .addStrike]
        ++ (if ctx.hasReviewGroup then
              [.forwardToReview (.strikeBypassed action)] else []))
    else
      let actEffects : List Effect :=
        if jstrEq action "warn" then [.incWarnings, .warnAct]
        else if jstrEq action "delete" then [.incWarnings, .deleteAct]
        else if jstrEq action "mute" then [.incWarnings, .muteAct]
        else if jstrEq action "ban" then
          [.incWarnings, .banAct] ++ (if ctx.hasStatus then [.recordBan] else [])
        else []
      .ok (base ++ [.recordAction] ++ actEffects
        ++ (if ctx.hasReviewGroup then [.forwardToReview (.plain action)] else [])
        ++ (if ctx.hasStatus then [.statusUpdate] else []))

/-- Effect list of a dispatch, empty when the dispatch raised. -/
def effectsOf (r : Except Unit (List Effect)) : List Effect :=
  r.toOption.getD []

/-- Number of `reputation.add_strike` calls in an effect trace. -/
def countStrikes (l : List Effect) : Nat :=
  l.countP fun e => match e with | .addStrike => true | _ => false

/-- Whether an effect is one of the chat-affecting `ActionExecutor` calls
`warn`, `delete`, `mute`, `ban`. -/
def isChatAction (e : Effect) : Bool :=
  match e with
  | .warnAct | .deleteAct | .muteAct | .banAct => true
  | _ => false

/-- Number of chat-affecting `ActionExecutor` calls in an effect trace. -/
def countChatActions (l : List Effect) : Nat :=
  l.countP isChatAction

/-!
## `ModerationEngine.evaluate` control flow

`engine.py` lines 133-260, embedded as a function from the boolean
outcomes of the checks `evaluate` performs to the ordered trace of the
pipeline steps it executes.
-/

/-- Pipeline steps of `evaluate`, in program order. -/
inductive EvalStep where
  | updateActivity
  | addContext
  | markProcessed
  | registerNewcomer
  | recordAction
  | incWarnings
  | preFilterDelete
  | forwardToReview
  | routeInstant
  | routeBatch
  | routeFallback
  deriving DecidableEq, Repr

/-- The branch conditions `evaluate` consults: `message.sender_id is None`,
`user_id in self.admin_ids`, the test-group check, `cache.is_processed`,
the cooldown check, the pre-filter match, `config.dry_run`,
`newcomer.is_newcomer`, `llm.has_local` and `llm.has_openrouter`. -/
structure EvalCtx where
  senderIdIsNone : Bool
  isAdmin : Bool
  isTestGroup : Bool
  alreadyProcessed : Bool
  onCooldown : Bool
  preFilterHit : Bool
  dryRun : Bool
  isNewcomer : Bool
  hasLocal : Bool
  hasOpenrouter : Bool

/-- Embedding of `ModerationEngine.evaluate` as a step trace (`engine.py` lines
141-260): return on a missing sender id; `reputation.update_activity`;
return for an admin outside a test group; context append; dedup return or
mark; newcomer registration; cooldown return; pre-filter branch
(`_record_action`, live-mode warning increment and delete, review
forward, return); routing to the instant local path, the batch queue, or
the direct fallback. -/
def evaluateTrace (ctx : EvalCtx) : List EvalStep :=
  if ctx.senderIdIsNone then []
  else
    [EvalStep.updateActivity] ++
    (if ctx.isAdmin && !ctx.isTestGroup then []
     else
       [EvalStep.addContext] ++
       (if ctx.alreadyProcessed then []
        else
          [EvalStep.markProcessed, EvalStep.registerNewcomer] ++
          (if ctx.onCooldown then []
           else if ctx.preFilterHit then
             [EvalStep.recordAction]
               ++ (if ctx.dryRun then []
                   else [EvalStep.incWarnings, EvalStep.preFilterDelete])
               ++ [EvalStep.forwardToReview]
           else
             if (ctx.isNewcomer || ctx.isTestGroup) && ctx.hasLocal then
               [EvalStep.routeInstant]
             else if ctx.hasOpenrouter then [EvalStep.routeBatch]
             else [EvalStep.routeFallback])))

/-!
## QuotaManager

`src/moderation/quota.py`. Wall-clock time is embedded as whole seconds
since the Unix epoch (a natural number); `interval_seconds` divides in
the rationals, standing for Python's real-valued division.
-/

/-- Seconds in a UTC day. -/
def secondsPerDay : Nat := 86400

/-- Embedding of `QuotaManager._current_day_start()`: the UTC midnight at or before
`now` (`quota.py` lines 45-50). -/
def currentDayStart (now : Nat) : Nat :=
  now / secondsPerDay * secondsPerDay

/-- Embedding of `QuotaManager._seconds_until_midnight()` (`quota.py` lines 52-59). -/
def secondsUntilMidnight (now : Nat) : Nat :=
  currentDayStart now + secondsPerDay - now

/-- The counters of `QuotaManager` relevant to reset and interval:
`_day_start`, `requests_used`, `newcomer_requests`. -/
structure QuotaState where
  dayStart : Nat
  requestsUsed : Nat
  newcomerRequests : Nat

/-- Embedding of `QuotaManager._maybe_reset()` (`quota.py` lines 61-73): when the
current UTC midnight has advanced past `_day_start`, reset both counters
and move `_day_start` forward; otherwise leave the state unchanged. -/
def maybe_reset (now : Nat) (st : QuotaState) : QuotaState :=
  if currentDayStart now > st.dayStart then
    { dayStart := currentDayStart now, requestsUsed := 0, newcomerRequests := 0 }
  else st

/-- Embedding of `QuotaManager.remaining_requests` (`quota.py` lines 75-79) as a
read: it first runs `_maybe_reset`, then returns
`max(0, daily_limit - requests_used)` together with the state after the
reset check (the property mutates `self`). Truncated natural subtraction
is exactly Python's `max(0, _)`. -/
def remaining_requests (dailyLimit : Nat) (now : Nat) (st : QuotaState) :
    Nat × QuotaState :=
  let st' := maybe_reset now st
  (dailyLimit - st'.requestsUsed, st')

/-- Embedding of `QuotaManager.interval_seconds` (`quota.py` lines 81-96): after the
reset check, a fallback of one hour when no requests remain, otherwise
`max(10, seconds_until_midnight / remaining)`. -/
def interval_seconds (dailyLimit : Nat) (now : Nat) (st : QuotaState) : ℚ :=
  let st' := maybe_reset now st
  let remaining : Nat := dailyLimit - st'.requestsUsed
  if remaining = 0 then 3600
  else max 10 ((secondsUntilMidnight now : ℚ) / (remaining : ℚ))

/-!
## BatchQueue token accounting and batch dispatch

`src/moderation/batch.py` and the verdict-application loop of
`ModerationEngine.handle_batch_flush` (`engine.py` lines 313-364).
A queued message enters the token model through its payload text.
-/

/-- Embedding of `QueuedMessage.estimated_tokens` (`batch.py` lines 34-38):
`max(1, len(text) // 4)` over the payload's message text. -/
def estimated_tokens (text : String) : Nat :=
  max 1 (text.length / 4)

/-- Embedding of `BatchQueue.estimated_tokens` (`batch.py` lines 103-106): the sum of
the per-message estimates over the queue. -/
def queue_estimated_tokens (queue : List String) : Nat :=
  (queue.map estimated_tokens).sum

/-- Result of one `BatchQueue.add` call: the queue after the append and
whether this call raised the flush signal (`self._flush_event.set()`). -/
structure BatchAddResult where
  queue : List String
  flushSignal : Bool

/-- Embedding of `BatchQueue.add` (`batch.py` lines 63-94): append the item, total the
estimated tokens over the queue, and raise the flush signal exactly when
the total reaches `max_batch_tokens`. -/
def batch_add (maxBatchTokens : Nat) (queue : List String) (text : String) :
    BatchAddResult :=
  let q' := queue ++ [text]
  { queue := q'
    flushSignal := decide (queue_estimated_tokens q' ≥ maxBatchTokens) }

/-- The substitute verdict `handle_batch_flush` uses for an item whose
index has no entry in the parsed verdict list (`engine.py` line 356). -/
def missingVerdict : JValue :=
  .jobj [("verdict", .jstr "ok"), ("reason", .jstr "missing verdict"),
         ("reply", .jstr "")]

/-- The loop body pairing of `handle_batch_flush` (`engine.py` lines
355-364), from loop index `i`: each drained item is paired with
`verdicts[i]` when the index is in range and with the substitute verdict
otherwise. -/
def dispatchVerdictsFrom {α : Type} (verdicts : List JValue) :
    Nat → List α → List (α × JValue)
  | _, [] => []
  | i, item :: rest =>
    (item, verdicts.getD i missingVerdict)
      :: dispatchVerdictsFrom verdicts (i + 1) rest

/-- The `for i, item in enumerate(items)` dispatch pairing of
`handle_batch_flush`: every drained item against its verdict or the
substitute. -/
def dispatchVerdicts {α : Type} (items : List α) (verdicts : List JValue) :
    List (α × JValue) :=
  dispatchVerdictsFrom verdicts 0 items

/-!
## Reputation strike excerpt and newcomer classification

`UserReputation.add_strike` (`reputation.py` lines 82-95) and
`NewcomerTracker.is_newcomer` (`newcomer.py` lines 48-53). Message text
is embedded as its character list; the first-seen store as a map from
user id to an optional first-seen time.
-/

/-- The `message_excerpt` stored by `UserReputation.add_strike`
(`reputation.py` line 91): `message_text[:100]` plus an ellipsis when the
text is longer than 100 characters. -/
def strike_excerpt (messageText : List Char) : List Char :=
  messageText.take 100
    ++ (if 100 < messageText.length then ['.', '.', '.'] else [])

/-- Embedding of `NewcomerTracker.is_newcomer(user_id)` (`newcomer.py` lines 48-53):
a user absent from the first-seen map is a newcomer; otherwise the user
is a newcomer exactly when `now - first_seen < window_seconds`. Times are
embedded as integers. -/
def is_newcomer (users : Int → Option Int) (windowSeconds : Int)
    (now : Int) (userId : Int) : Bool :=
  match users userId with
  | none => true
  | some firstSeen => decide (now - firstSeen < windowSeconds)

/-- Number of `ActionExecutor.warn` calls in an effect trace. -/
def countWarnCalls (l : List Effect) : Nat :=
  l.countP fun e => match e with | .warnAct => true | _ => false

/-- Dispatch context of a live-mode (`dry_run=false`) engine acting on a
trusted user in an ordinary (non-test) chat with a review group and a
status reporter configured. -/
def trustedLiveCtx : DispatchCtx :=
  { dryRun := false, trusted := true, isTestGroup := false,
    hasReviewGroup := true, hasStatus := true }

/-- A well-formed `warn` verdict as the LLM emits it. -/
def warnVerdict : JValue :=
  .jobj [("verdict", .jstr "warn"), ("reason", .jstr "self-promo"),
         ("reply", .jstr "please stop")]

/-- A well-formed `ban` verdict as the LLM emits it. -/
def banVerdict : JValue :=
  .jobj [("verdict", .jstr "ban"), ("reason", .jstr "scam link"),
         ("reply", .jstr "")]

/-- Concrete parse oracle recording how Python's `json.loads` and `re`
behave on the input `"garbage"`: no parse, no bracketed or braced
substring, no object candidates. -/
def failEnv : ParseEnv :=
  { jsonLoads := fun _ => none
    searchArray := fun _ => none
    searchObject := fun _ => none
    findObjects := fun _ => [] }

/-- Concrete parse oracle recording how Python's `json.loads` and `re`
behave on the input `"{}"`: the whole string parses to the empty JSON
object. -/
def emptyObjEnv : ParseEnv :=
  { jsonLoads := fun s => if s = ['{', '}'] then some (.jobj []) else none
    searchArray := fun _ => none
    searchObject := fun s => if s = ['{', '}'] then some s else none
    findObjects := fun _ => [] }

/-- Evaluation context of a message from an admin user in an ordinary
(non-test) chat. -/
def adminNonTestCtx : EvalCtx :=
  { senderIdIsNone := false, isAdmin := true, isTestGroup := false,
    alreadyProcessed := false, onCooldown := false, preFilterHit := false,
    dryRun := false, isNewcomer := false, hasLocal := true,
    hasOpenrouter := true }

/-!
## Theorems
-/

/-- C8: `NewcomerTracker.is_newcomer(u)` returns true iff `u` is absent
from the first-seen map or `now - first_seen(u) < window`; and the
boundary is strict: a user whose `first_seen` equals exactly
`now - window` is not a newcomer. -/
theorem is_newcomer_absent_or_strictly_within
    (users : Int → Option Int) (w now uid : Int) :
    (is_newcomer users w now uid = true ↔
      users uid = none ∨ ∃ fs, users uid = some fs ∧ now - fs < w)
    ∧ is_newcomer (fun u => if u = uid then some (now - w) else none)
        w now uid = false := by
  constructor
  · cases h : users uid with
    | none => simp [is_newcomer, h]
    | some fs => simp [is_newcomer, h]
  · simp [is_newcomer, sub_sub_cancel]

/-- C6 counterexample: on a 101-character message, the stored excerpt of
`UserReputation.add_strike` is 103 characters long, so it is not at most
100 characters. -/
theorem strike_excerpt_101_chars_gives_103 :
    (strike_excerpt (List.replicate 101 'a')).length = 103
    ∧ ¬ (strike_excerpt (List.replicate 101 'a')).length ≤ 100 := by
  constructor <;> simp [strike_excerpt]

/-- C6 amended: the excerpt stored by `add_strike` keeps the first
100 characters of the message and appends a three-character ellipsis when
the message is longer, so its length is
`min len 100` plus `3` on truncation, and in particular at most 103. -/
theorem strike_excerpt_length_eq (t : List Char) :
    (strike_excerpt t).length
      = min 100 t.length + (if 100 < t.length then 3 else 0)
    ∧ (strike_excerpt t).length ≤ 103 := by
  have h : (strike_excerpt t).length
      = min 100 t.length + (if 100 < t.length then 3 else 0) := by
    simp only [strike_excerpt, List.length_append, List.length_take]
    split <;> simp
  refine ⟨h, ?_⟩
  rw [h]
  have := Nat.min_le_left 100 t.length
  split <;> omega

/-- C5: `BatchQueue.add` appends the item, the per-item estimate is
`max(1, len(text) / 4)`, and the flush signal is raised iff the estimated
token sum over the queue after the append is at least
`max_batch_tokens`; in particular a queue whose sum exactly equals
`max_batch_tokens` after the add raises the signal. -/
theorem batch_add_flush_signal_iff (maxTok : Nat) (q : List String) (t : String) :
    (batch_add maxTok q t).queue = q ++ [t]
    ∧ ((batch_add maxTok q t).flushSignal = true ↔
        queue_estimated_tokens (q ++ [t]) ≥ maxTok)
    ∧ (queue_estimated_tokens (q ++ [t]) = maxTok →
        (batch_add maxTok q t).flushSignal = true)
    ∧ estimated_tokens t = max 1 (t.length / 4) := by
  refine ⟨rfl, by simp [batch_add], ?_, rfl⟩
  intro h
  simp [batch_add, h]

/-- C5 witness: with `max_batch_tokens = 5` and a single 20-character
message (estimate `20 / 4 = 5`), the sum equals the threshold exactly and
the flush signal is raised. -/
theorem batch_add_flush_signal_witness :
    (batch_add 5 [] "abcdefghijklmnopqrst").flushSignal = true :=
  (batch_add_flush_signal_iff 5 [] "abcdefghijklmnopqrst").2.2.1 (by decide)

/-- C3: on the first `remaining_requests` read after a UTC-midnight
rollover (state loaded with a previous day's `day_bucket_start` and any
`requests_used`), `_maybe_reset` fires: the read returns `daily_limit`,
and the state after the read has `requests_used = 0`,
`newcomer_requests = 0` and `day_bucket_start` equal to the current
day's UTC midnight. -/
theorem quota_rollover_resets (dailyLimit used newc t0 now : Nat)
    (h : currentDayStart t0 < currentDayStart now) :
    remaining_requests dailyLimit now ⟨currentDayStart t0, used, newc⟩
      = (dailyLimit,
         { dayStart := currentDayStart now, requestsUsed := 0,
           newcomerRequests := 0 }) := by
  simp [remaining_requests, maybe_reset, h]

/-- C3 witness: a state persisted during day 0 with 999 used requests,
read at time 90000 (day 1), resets to 1000 remaining, zero counters and
`day_bucket_start = 86400`. -/
theorem quota_rollover_resets_witness :
    remaining_requests 1000 90000 ⟨currentDayStart 1000, 999, 7⟩
      = (1000, { dayStart := currentDayStart 90000, requestsUsed := 0,
                 newcomerRequests := 0 }) :=
  quota_rollover_resets 1000 999 7 1000 90000 (by decide)

/-- Evaluation of `interval_seconds` when the state's day bucket is
current (no reset) and requests remain. -/
theorem interval_seconds_no_reset (limit now u n : Nat) (hu : u < limit) :
    interval_seconds limit now ⟨currentDayStart now, u, n⟩
      = max 10 ((secondsUntilMidnight now : ℚ) / ((limit - u : Nat) : ℚ)) := by
  have h0 : limit - u ≠ 0 := Nat.sub_ne_zero_of_lt hu
  simp [interval_seconds, maybe_reset, h0]

/-- C4 counterexample: two `interval_seconds` reads at the same instant
(time 0, a full day remaining) of the same day bucket, with
`requests_used` growing from 0 to 999 out of a daily limit of 1000. The
first read gives `max(10, 86400/1000) = 86.4` s, the second
`max(10, 86400/1) = 86400` s: the later read is strictly larger, so the
interval is not monotonically non-increasing as `requests_used`
approaches `daily_limit`. -/
theorem interval_seconds_not_nonincreasing :
    ¬ interval_seconds 1000 0 ⟨currentDayStart 0, 999, 0⟩
        ≤ interval_seconds 1000 0 ⟨currentDayStart 0, 0, 0⟩ := by
  rw [interval_seconds_no_reset 1000 0 999 0 (by norm_num),
      interval_seconds_no_reset 1000 0 0 0 (by norm_num)]
  norm_num [secondsUntilMidnight, currentDayStart, secondsPerDay, max_def]

/-- C4 amended: at a fixed read time within the current day bucket,
`interval_seconds` is monotonically non-decreasing (not non-increasing)
as `requests_used` approaches `daily_limit`, while requests remain:
consuming quota spreads the remaining requests over the remaining time,
lengthening the interval, subject to the 10-second floor. -/
theorem interval_seconds_nondecreasing_in_usage
    (limit now u u' n n' : Nat) (hu : u ≤ u') (hu' : u' < limit) :
    interval_seconds limit now ⟨currentDayStart now, u, n⟩
      ≤ interval_seconds limit now ⟨currentDayStart now, u', n'⟩ := by
  rw [interval_seconds_no_reset limit now u n (lt_of_le_of_lt hu hu'),
      interval_seconds_no_reset limit now u' n' hu']
  refine max_le_max le_rfl ?_
  refine div_le_div_of_nonneg_left (Nat.cast_nonneg _) ?_ ?_
  · exact_mod_cast Nat.sub_pos_of_lt hu'
  · exact_mod_cast Nat.sub_le_sub_left hu limit

/-- C4 amended witness: at time 0 with a daily limit of 1000, the
interval at 0 used requests (86.4 s) is at most the interval at 999 used
requests (86400 s). -/
theorem interval_seconds_nondecreasing_witness :
    interval_seconds 1000 0 ⟨currentDayStart 0, 0, 0⟩
      ≤ interval_seconds 1000 0 ⟨currentDayStart 0, 999, 0⟩ :=
  interval_seconds_nondecreasing_in_usage 1000 0 0 999 0 0
    (by norm_num) (by norm_num)

/-- C7 counterexample: for a message from an admin user in a non-test
chat, `evaluate` does call `reputation.update_activity` before returning
— the activity tick precedes the admin skip gate, contradicting the
claimed gate-then-tick order. -/
theorem admin_message_still_ticks_activity :
    EvalStep.updateActivity ∈ evaluateTrace adminNonTestCtx := by decide

/-- C7 amended: the missing-sender-id gate precedes the activity tick,
but the admin gate follows it: for every message with a sender id from an
admin user in a non-test chat, `evaluate` calls
`reputation.update_activity` and then stops, performing none of the later
steps (no context append, dedup marking, newcomer registration, cooldown
or pre-filter processing, and no routing). -/
theorem admin_skip_comes_after_activity_tick (ctx : EvalCtx)
    (hid : ctx.senderIdIsNone = false)
    (ha : ctx.isAdmin = true) (ht : ctx.isTestGroup = false) :
    evaluateTrace ctx = [EvalStep.updateActivity] := by
  simp [evaluateTrace, hid, ha, ht]

/-- C7 amended witness: the admin-in-ordinary-chat context produces
exactly the activity tick and nothing else. -/
theorem admin_skip_comes_after_activity_tick_witness :
    evaluateTrace adminNonTestCtx = [EvalStep.updateActivity] :=
  admin_skip_comes_after_activity_tick adminNonTestCtx rfl rfl rfl

/-- C1 counterexample: in live mode, a `warn` verdict on a trusted user
is not downgraded — the dispatch records no strike and calls
`ActionExecutor.warn` once, so the claimed trusted-user guarantee fails
for the `warn` tag. -/
theorem trusted_warn_not_downgraded :
    countStrikes (effectsOf (apply_verdict trustedLiveCtx warnVerdict)) = 0
    ∧ countChatActions (effectsOf (apply_verdict trustedLiveCtx warnVerdict)) = 1
    ∧ countWarnCalls (effectsOf (apply_verdict trustedLiveCtx warnVerdict)) = 1 := by
  refine ⟨?_, ?_, ?_⟩ <;> rfl

/-- C1 amended: in live mode on a trusted user, the downgrade applies to
the tags `delete`, `mute` and `ban` only: for those, the dispatch appends
exactly one strike and calls none of the chat-affecting actions `warn`,
`delete`, `mute`, `ban`. The `warn` tag is excluded from the downgrade:
it calls `ActionExecutor.warn` and records no strike. -/
theorem trusted_nonok_downgraded_to_strike (ctx : DispatchCtx) (v : JValue)
    (a : String) (hdry : ctx.dryRun = false) (htr : ctx.trusted = true)
    (hv : getItem v "verdict" = some (.jstr a))
    (ha : a = "delete" ∨ a = "mute" ∨ a = "ban") :
    countStrikes (effectsOf (apply_verdict ctx v)) = 1
    ∧ countChatActions (effectsOf (apply_verdict ctx v)) = 0 := by
  obtain ⟨dr, tr, tg, rg, st⟩ := ctx
  simp only at hdry htr
  subst hdry htr
  rcases ha with rfl | rfl | rfl <;>
    · simp only [apply_verdict, hv]
      cases rg <;> cases st <;>
        · simp [jstrEq]
          exact ⟨rfl, rfl⟩

/-- C1 amended witness: a live-mode `ban` verdict on a trusted user
yields exactly one strike and zero chat-affecting actions. -/
theorem trusted_nonok_downgraded_to_strike_witness :
    countStrikes (effectsOf (apply_verdict trustedLiveCtx banVerdict)) = 1
    ∧ countChatActions (effectsOf (apply_verdict trustedLiveCtx banVerdict)) = 0 :=
  trusted_nonok_downgraded_to_strike trustedLiveCtx banVerdict "ban"
    rfl rfl rfl (Or.inr (Or.inr rfl))

/-- C2: when every step of the tolerant cascade fails —
`parse_batch_verdicts` finds no JSON array in the whole string, no
parseable array substring and no parseable object substring — it returns
exactly `expected_count` verdicts, each `ok` with reason
`unparseable batch response`; and when both parse steps of the engine's
`_parse_verdict` fail it returns the `ok` verdict with reason
`unparseable LLM response`. A parse failure therefore never yields a
chat-affecting verdict. -/
theorem parse_failure_is_fail_safe :
    (∀ (env : ParseEnv) (raw : PyStr) (n : Nat),
        (∀ xs, env.jsonLoads (stripFences raw) ≠ some (.jarr xs)) →
        (∀ sub, env.searchArray (stripFences raw) = some sub →
            ∀ xs, env.jsonLoads sub ≠ some (.jarr xs)) →
        (env.findObjects (stripFences raw)).filterMap env.jsonLoads = [] →
        parse_batch_verdicts env raw n = List.replicate n okBatchFallback
          ∧ (parse_batch_verdicts env raw n).length = n
          ∧ ∀ v ∈ parse_batch_verdicts env raw n,
              getItem v "verdict" = some (.jstr "ok")
                ∧ getItem v "reason" = some (.jstr "unparseable batch response"))
    ∧ (∀ (env : ParseEnv) (raw : PyStr),
        env.jsonLoads (stripFences raw) = none →
        (∀ sub, env.searchObject (stripFences raw) = some sub →
            env.jsonLoads sub = none) →
        parse_verdict env raw = okSingleFallback
          ∧ getItem (parse_verdict env raw) "verdict" = some (.jstr "ok")
          ∧ getItem (parse_verdict env raw) "reason"
              = some (.jstr "unparseable LLM response")) := by
  constructor
  · intro env raw n h1 h2 h3
    have hstep3 : ∀ sub, env.searchArray (stripFences raw) = some sub →
        ∀ w, env.jsonLoads sub = some w → ∀ xs, w ≠ JValue.jarr xs := by
      intro sub hs w hw xs hxs
      exact h2 sub hs xs (hxs ▸ hw)
    have hmain : parse_batch_verdicts env raw n
        = List.replicate n okBatchFallback := by
      simp only [parse_batch_verdicts, h3, List.isEmpty_nil, if_true]
      cases hc : env.jsonLoads (stripFences raw) with
      | some v =>
        cases v with
        | jarr xs => exact absurd hc (h1 xs)
        | jnull =>
          cases hs : env.searchArray (stripFences raw) with
          | none => rfl
          | some sub =>
            cases hc2 : env.jsonLoads sub with
            | none => simp [hc2]
            | some w => cases w <;>
                first
                  | exact absurd rfl (hstep3 sub hs _ hc2 _)
                  | simp [hc2]
        | jbool b =>
          cases hs : env.searchArray (stripFences raw) with
          | none => rfl
          | some sub =>
            cases hc2 : env.jsonLoads sub with
            | none => simp [hc2]
            | some w => cases w <;>
                first
                  | exact absurd rfl (hstep3 sub hs _ hc2 _)
                  | simp [hc2]
        | jnum m =>
          cases hs : env.searchArray (stripFences raw) with
          | none => rfl
          | some sub =>
            cases hc2 : env.jsonLoads sub with
            | none => simp [hc2]
            | some w => cases w <;>
                first
                  | exact absurd rfl (hstep3 sub hs _ hc2 _)
                  | simp [hc2]
        | jstr s =>
          cases hs : env.searchArray (stripFences raw) with
          | none => rfl
          | some sub =>
            cases hc2 : env.jsonLoads sub with
            | none => simp [hc2]
            | some w => cases w <;>
                first
                  | exact absurd rfl (hstep3 sub hs _ hc2 _)
                  | simp [hc2]
        | jobj f =>
          cases hs : env.searchArray (stripFences raw) with
          | none => rfl
          | some sub =>
            cases hc2 : env.jsonLoads sub with
            | none => simp [hc2]
            | some w => cases w <;>
                first
                  | exact absurd rfl (hstep3 sub hs _ hc2 _)
                  | simp [hc2]
      | none =>
        cases hs : env.searchArray (stripFences raw) with
        | none => rfl
        | some sub =>
          cases hc2 : env.jsonLoads sub with
          | none => simp [hc2]
          | some w => cases w <;>
              first
                | exact absurd rfl (hstep3 sub hs _ hc2 _)
                | simp [hc2]
    refine ⟨hmain, by rw [hmain, List.length_replicate], ?_⟩
    intro v hv
    rw [hmain] at hv
    rw [List.eq_of_mem_replicate hv]
    exact ⟨rfl, rfl⟩
  · intro env raw h1 h2
    have hmain : parse_verdict env raw = okSingleFallback := by
      simp only [parse_verdict, h1]
      cases hs : env.searchObject (stripFences raw) with
      | none => rfl
      | some sub => simp [h2 sub hs]
    exact ⟨hmain, by rw [hmain]; rfl, by rw [hmain]; rfl⟩

/-- C2 witness: on the raw response `"garbage"`, on which Python's
`json.loads` fails and no array or object substring exists, the batch
parser yields three fail-safe `ok` verdicts and the engine parser yields
the fail-safe `ok` verdict. -/
theorem parse_failure_is_fail_safe_witness :
    parse_batch_verdicts failEnv "garbage".toList 3 = List.replicate 3 okBatchFallback
    ∧ parse_verdict failEnv "garbage".toList = okSingleFallback := by
  refine ⟨(parse_failure_is_fail_safe.1 failEnv "garbage".toList 3 ?_ ?_ ?_).1,
          (parse_failure_is_fail_safe.2 failEnv "garbage".toList rfl ?_).1⟩
  · intro xs
    simp [failEnv]
  · intro sub h
    simp [failEnv] at h
  · rfl
  · intro sub h
    simp [failEnv] at h

/-- C10: the fail-open guarantee does not cover well-formed JSON of the
wrong shape. On the input `"{}"`, which `json.loads` parses to an empty
object, `_parse_verdict` returns that object unchanged; it has no
`verdict` key, and the unguarded `verdict["verdict"]` lookup in
`_apply_verdict` then raises instead of producing an `ok` dispatch — the
error branch of dispatch is reachable from parser output. -/
theorem parse_wrong_shape_reaches_dispatch_error (env : ParseEnv)
    (ctx : DispatchCtx) (h : env.jsonLoads ['{', '}'] = some (.jobj [])) :
    parse_verdict env ['{', '}'] = .jobj []
    ∧ getItem (parse_verdict env ['{', '}']) "verdict" = none
    ∧ apply_verdict ctx (parse_verdict env ['{', '}']) = .error () := by
  have hs : stripFences ['{', '}'] = ['{', '}'] := rfl
  have hp : parse_verdict env ['{', '}'] = .jobj [] := by
    simp [parse_verdict, hs, h]
  rw [hp]
  exact ⟨rfl, rfl, rfl⟩

/-- C10 witness: with the oracle recording Python's behaviour on
`"{}"`, the dispatch of the parsed verdict raises. -/
theorem parse_wrong_shape_reaches_dispatch_error_witness :
    apply_verdict trustedLiveCtx (parse_verdict emptyObjEnv ['{', '}']) = .error () :=
  (parse_wrong_shape_reaches_dispatch_error emptyObjEnv trustedLiveCtx rfl).2.2

/-- Unfolding of the `handle_batch_flush` pairing loop from an arbitrary
start index: the items are zipped against the verdicts from that index
padded with the substitute verdict. -/
theorem dispatchVerdictsFrom_eq_zip {α : Type} (verdicts : List JValue) :
    ∀ (items : List α) (i : Nat),
      dispatchVerdictsFrom verdicts i items
        = items.zip ((verdicts.drop i).take items.length
            ++ List.replicate (items.length - (verdicts.length - i))
                missingVerdict) := by
  intro items
  induction items with
  | nil => intro i; simp [dispatchVerdictsFrom]
  | cons it rest ih =>
    intro i
    by_cases hi : i < verdicts.length
    · have hdrop : verdicts.drop i = verdicts[i] :: verdicts.drop (i + 1) :=
        (List.getElem_cons_drop verdicts i hi).symm
      have hco : (rest.length + 1) - (verdicts.length - i)
          = rest.length - (verdicts.length - (i + 1)) := by omega
      have hgetD : verdicts.getD i missingVerdict = verdicts[i] :=
        List.getD_eq_getElem verdicts missingVerdict hi
      simp only [dispatchVerdictsFrom, ih (i + 1), hdrop, List.length_cons,
        List.take_succ_cons, List.cons_append, List.zip_cons_cons, hgetD, hco]
    · have hle : verdicts.length ≤ i := Nat.le_of_not_lt hi
      have hdrop : verdicts.drop i = [] := List.drop_eq_nil_of_le hle
      have hdrop' : verdicts.drop (i + 1) = [] :=
        List.drop_eq_nil_of_le (Nat.le_succ_of_le hle)
      have hz : verdicts.length - i = 0 := Nat.sub_eq_zero_of_le hle
      have hz' : verdicts.length - (i + 1) = 0 :=
        Nat.sub_eq_zero_of_le (Nat.le_succ_of_le hle)
      have hgetD : verdicts.getD i missingVerdict = missingVerdict :=
        List.getD_eq_default verdicts missingVerdict hle
      simp only [dispatchVerdictsFrom, ih (i + 1), hdrop, hdrop', hz, hz',
        List.take_nil, List.nil_append, List.length_cons, Nat.sub_zero,
        List.replicate_succ, List.zip_cons_cons, hgetD]

/-- C9: the verdict-application loop of `handle_batch_flush` pairs every
drained item, in order, with the verdict at its index when one exists and
with the substitute verdict (`ok`, reason `missing verdict`, empty reply)
when the parsed list is shorter; verdict entries at indices beyond the
number of drained items are never dispatched (only the first
`items.length` verdicts are consumed), and exactly one dispatch happens
per drained item. -/
theorem batch_flush_mismatch_never_drops_or_escalates {α : Type}
    (items : List α) (verdicts : List JValue) :
    dispatchVerdicts items verdicts
      = items.zip (verdicts.take items.length
          ++ List.replicate (items.length - verdicts.length) missingVerdict)
    ∧ (dispatchVerdicts items verdicts).length = items.length
    ∧ getItem missingVerdict "verdict" = some (.jstr "ok")
    ∧ getItem missingVerdict "reason" = some (.jstr "missing verdict")
    ∧ getItem missingVerdict "reply" = some (.jstr "") := by
  have h := dispatchVerdictsFrom_eq_zip verdicts items 0
  simp only [List.drop_zero, Nat.sub_zero] at h
  refine ⟨h, ?_, rfl, rfl, rfl⟩
  unfold dispatchVerdicts
  rw [h]
  simp only [List.length_zip, List.length_append, List.length_take,
    List.length_replicate]
  omega
